import Mathlib

/-!
Verification development for the core of the kona rollup node:
the Build Task (`crates/node/engine/src/task_queue/tasks/build/task.rs`)
and the Derivation Actor state (`crates/node/service/src/actors/derivation.rs`).

The Rust source is shallowly embedded: external collaborators (the engine
client, the derivation pipeline, channels and watches) are modelled as
explicit oracles / data, machine integers as `Nat`, fallible calls as
`Except`, and the `&mut EngineState` threading as explicit state passing.
Every embedded function additionally returns a trace of observable events
(Engine API calls, head mutations, channel sends) so that ordering and
frame properties can be stated.
-/

set_option maxHeartbeats 1000000

namespace Kona

/-- Block hashes, modelled as natural numbers; `0` is the zero hash. -/
abbrev Hash := Nat

/-- Opaque 64-bit payload identifier returned by the engine. -/
abbrev PayloadId := Nat

/-- Minimal L1/L2 block reference data: number, hash, parent hash, timestamp. -/
structure BlockInfo where
  number : Nat
  hash : Hash
  parent_hash : Hash
  timestamp : Nat
deriving DecidableEq, Repr

/-- Modelled from the spec: an L2 `BlockRef` carries block info plus an
L1-origin reference and a sequence number (`kona_protocol::L2BlockInfo`,
outside `src/`). -/
structure L2BlockInfo where
  block_info : BlockInfo
  l1_origin_number : Nat
  l1_origin_hash : Hash
  seq_num : Nat
deriving DecidableEq, Repr

/-- Modelled from the spec: an L2 transaction, abstracted to the one bit the
core inspects — whether it is a protocol deposit transaction. -/
structure Tx where
  isDeposit : Bool
  payload : Nat
deriving DecidableEq, Repr

/-- Ethereum payload attributes: the fields the core reads (timestamp and
parent beacon block root). Modelled from the spec: the remaining fields
(withdrawals, gas limit, ...) are opaque to the core. -/
structure PayloadAttributes where
  timestamp : Nat
  parent_beacon_block_root : Option Hash
deriving DecidableEq, Repr

/-- OP-stack payload attributes: Ethereum attributes plus the optional
transactions list. Modelled from the spec (`OpPayloadAttributes`,
outside `src/`). -/
structure OpPayloadAttributes where
  payload_attributes : PayloadAttributes
  transactions : Option (List Tx)
deriving DecidableEq, Repr

/-- Modelled from the spec: `OpAttributesWithParent` — the instruction to
build a block: inner payload attributes plus the parent L2 block reference
(`kona_protocol`, outside `src/`). -/
structure OpAttributesWithParent where
  inner : OpPayloadAttributes
  parent : L2BlockInfo
deriving DecidableEq, Repr

/-- Modelled from the spec: `is_deposits_only()` holds when every carried
transaction is a protocol deposit. -/
def OpAttributesWithParent.is_deposits_only (a : OpAttributesWithParent) : Bool :=
  (a.inner.transactions.getD []).all (·.isDeposit)

/-- Modelled from the spec: `as_deposits_only()` retains only the
protocol-deposit transactions, leaving all other fields unchanged. -/
def OpAttributesWithParent.as_deposits_only (a : OpAttributesWithParent) : OpAttributesWithParent :=
  { a with inner := { a.inner with
      transactions := some ((a.inner.transactions.getD []).filter (·.isDeposit)) } }

theorem OpAttributesWithParent.as_deposits_only_is_deposits_only (a : OpAttributesWithParent) :
    a.as_deposits_only.is_deposits_only = true := by
  simp [as_deposits_only, is_deposits_only, List.all_eq_true, List.mem_filter]

/-- Forkchoice triple of block hashes (`alloy_rpc_types_engine::ForkchoiceState`). -/
structure ForkchoiceState where
  head_block_hash : Hash
  safe_block_hash : Hash
  finalized_block_hash : Hash
deriving DecidableEq, Repr

/-- Engine API payload status (`PayloadStatusEnum`): `Valid`,
`Invalid(validation_error)`, `Syncing`, `Accepted`. -/
inductive PayloadStatusEnum where
  | valid
  | invalid (validation_error : String)
  | syncing
  | accepted
deriving DecidableEq, Repr

/-- Response of `engine_forkchoiceUpdated`: a payload status and an optional
payload id. -/
structure ForkchoiceUpdated where
  payload_status : PayloadStatusEnum
  payload_id : Option PayloadId
deriving DecidableEq, Repr

/-- V1 execution payload, abstracted to opaque block data. -/
structure ExecutionPayloadV1 where
  block_data : Nat
deriving DecidableEq, Repr

/-- V2 execution payload: a V1 payload plus withdrawals. -/
structure ExecutionPayloadV2 where
  payload_inner : ExecutionPayloadV1
  withdrawals : List Nat
deriving DecidableEq, Repr

/-- V3 (Ecotone) execution payload, abstracted to opaque block data. -/
structure ExecutionPayloadV3 where
  block_data : Nat
deriving DecidableEq, Repr

/-- V4 (Isthmus) execution payload, abstracted to opaque block data. -/
structure ExecutionPayloadV4 where
  block_data : Nat
deriving DecidableEq, Repr

/-- Body of a `engine_getPayloadV2` response: either a V1 or a V2 payload
(`alloy_rpc_types_engine::ExecutionPayloadFieldV2`). -/
inductive ExecutionPayloadFieldV2 where
  | v1 (payload : ExecutionPayloadV1)
  | v2 (payload : ExecutionPayloadV2)
deriving DecidableEq, Repr

/-- Input of `engine_newPayloadV2`. -/
structure ExecutionPayloadInputV2 where
  execution_payload : ExecutionPayloadV1
  withdrawals : Option (List Nat)
deriving DecidableEq, Repr

/-- `engine_getPayloadV3` response: payload plus parent beacon block root. -/
structure OpExecutionPayloadEnvelopeV3 where
  execution_payload : ExecutionPayloadV3
  parent_beacon_block_root : Hash
deriving DecidableEq, Repr

/-- `engine_getPayloadV4` response: payload plus parent beacon block root. -/
structure OpExecutionPayloadEnvelopeV4 where
  execution_payload : ExecutionPayloadV4
  parent_beacon_block_root : Hash
deriving DecidableEq, Repr

/-- `engine_getPayloadV2` response. -/
structure OpExecutionPayloadEnvelopeV2 where
  execution_payload : ExecutionPayloadFieldV2
deriving DecidableEq, Repr

/-- Versioned OP execution payload (`op_alloy_rpc_types_engine::OpExecutionPayload`). -/
inductive OpExecutionPayload where
  | V1 (p : ExecutionPayloadV1)
  | V2 (p : ExecutionPayloadV2)
  | V3 (p : ExecutionPayloadV3)
  | V4 (p : ExecutionPayloadV4)
deriving DecidableEq, Repr

/-- Versioned execution payload envelope plus optional parent beacon block
root (`OpExecutionPayloadEnvelope`). -/
structure OpExecutionPayloadEnvelope where
  parent_beacon_block_root : Option Hash
  payload : OpExecutionPayload
deriving DecidableEq, Repr

/-- Modelled from the spec: the genesis descriptor is represented abstractly
by the lift it induces from an execution payload (plus optional parent beacon
block root) to an L2 block reference (`RollupConfig.genesis`, used by
`L2BlockInfo::from_payload_and_genesis`; both outside `src/`). -/
structure Genesis where
  from_payload : OpExecutionPayload → Option Hash → Except String L2BlockInfo

/-- Modelled from the spec: `L2BlockInfo::from_payload_and_genesis` lifts an
execution payload to an L2 block reference using the genesis descriptor
(`kona_protocol`, outside `src/`); it is fallible. -/
def L2BlockInfo.from_payload_and_genesis (payload : OpExecutionPayload)
    (parent_beacon_block_root : Option Hash) (genesis : Genesis) :
    Except String L2BlockInfo :=
  genesis.from_payload payload parent_beacon_block_root

/-- Modelled from the spec: the rollup configuration provides timestamp-keyed
fork activation times and the genesis descriptor (`kona_genesis::RollupConfig`,
outside `src/`). A fork with activation time `a` is active at timestamp `t`
iff `a ≤ t`; `none` means the fork is not scheduled. -/
structure RollupConfig where
  canyon_time : Option Nat
  ecotone_time : Option Nat
  holocene_time : Option Nat
  isthmus_time : Option Nat
  interop_time : Option Nat
  genesis : Genesis

/-- Modelled from the spec: Canyon is active at `t` iff its scheduled
activation time is at most `t`. -/
def RollupConfig.is_canyon_active (cfg : RollupConfig) (t : Nat) : Bool :=
  match cfg.canyon_time with
  | none => false
  | some a => a ≤ t

/-- Modelled from the spec: Ecotone activation predicate. -/
def RollupConfig.is_ecotone_active (cfg : RollupConfig) (t : Nat) : Bool :=
  match cfg.ecotone_time with
  | none => false
  | some a => a ≤ t

/-- Modelled from the spec: Holocene activation predicate. -/
def RollupConfig.is_holocene_active (cfg : RollupConfig) (t : Nat) : Bool :=
  match cfg.holocene_time with
  | none => false
  | some a => a ≤ t

/-- Modelled from the spec: Isthmus activation predicate. -/
def RollupConfig.is_isthmus_active (cfg : RollupConfig) (t : Nat) : Bool :=
  match cfg.isthmus_time with
  | none => false
  | some a => a ≤ t

/-- Modelled from the spec: Interop activation predicate. -/
def RollupConfig.is_interop_active (cfg : RollupConfig) (t : Nat) : Bool :=
  match cfg.interop_time with
  | none => false
  | some a => a ≤ t

/-- Version of the `engine_forkchoiceUpdated` method family. -/
inductive EngineForkchoiceVersion where
  | V1
  | V2
  | V3
deriving DecidableEq, Repr

/-- Modelled from the spec: `EngineForkchoiceVersion::from_cfg` (outside
`src/`) selects the forkchoice-update version from the attribute timestamp:
V3 once Ecotone is active, else V2 once Canyon is active, else V1. -/
def EngineForkchoiceVersion.from_cfg (cfg : RollupConfig) (t : Nat) :
    EngineForkchoiceVersion :=
  if cfg.is_ecotone_active t then .V3
  else if cfg.is_canyon_active t then .V2
  else .V1

/-- Version of the `engine_getPayload` method family. -/
inductive EngineGetPayloadVersion where
  | V2
  | V3
  | V4
deriving DecidableEq, Repr

/-- Modelled from the spec: `EngineGetPayloadVersion::from_cfg` (outside
`src/`) selects the get-payload version from the payload timestamp: V4 once
Isthmus is active, V3 once Ecotone is active, else V2. -/
def EngineGetPayloadVersion.from_cfg (cfg : RollupConfig) (t : Nat) :
    EngineGetPayloadVersion :=
  if cfg.is_isthmus_active t then .V4
  else if cfg.is_ecotone_active t then .V3
  else .V2

/-- Version of the `engine_newPayload` method family. -/
inductive EngineNewPayloadVersion where
  | V1
  | V2
  | V3
  | V4
deriving DecidableEq, Repr

/-- The wire version a versioned execution payload belongs to. -/
def OpExecutionPayload.version : OpExecutionPayload → EngineNewPayloadVersion
  | .V1 _ => .V1
  | .V2 _ => .V2
  | .V3 _ => .V3
  | .V4 _ => .V4

/-- Modelled from the spec: the in-memory Engine State — the ordered tower of
head references, least to most committed (`kona` engine crate, outside
`src/`). -/
structure EngineState where
  unsafe_head : L2BlockInfo
  cross_unsafe_head : L2BlockInfo
  local_safe_head : L2BlockInfo
  safe_head : L2BlockInfo
  finalized_head : L2BlockInfo
deriving DecidableEq, Repr

/-- Modelled from the spec: setter for the unsafe head. -/
def EngineState.set_unsafe_head (s : EngineState) (b : L2BlockInfo) : EngineState :=
  { s with unsafe_head := b }

/-- Modelled from the spec: setter for the cross-unsafe head. -/
def EngineState.set_cross_unsafe_head (s : EngineState) (b : L2BlockInfo) : EngineState :=
  { s with cross_unsafe_head := b }

/-- Modelled from the spec: setter for the local-safe head. -/
def EngineState.set_local_safe_head (s : EngineState) (b : L2BlockInfo) : EngineState :=
  { s with local_safe_head := b }

/-- Modelled from the spec: setter for the safe head. -/
def EngineState.set_safe_head (s : EngineState) (b : L2BlockInfo) : EngineState :=
  { s with safe_head := b }

/-- Modelled from the spec: `create_forkchoice_state()` snapshots the
(unsafe, safe, finalized) block hashes. -/
def EngineState.create_forkchoice_state (s : EngineState) : ForkchoiceState :=
  { head_block_hash := s.unsafe_head.block_info.hash
    safe_block_hash := s.safe_head.block_info.hash
    finalized_block_hash := s.finalized_head.block_info.hash }

/-- The head-tower ordering invariant of the spec:
`unsafe ≥ cross_unsafe ≥ local_safe ≥ safe ≥ finalized` by block number. -/
def EngineState.ordered (s : EngineState) : Prop :=
  s.cross_unsafe_head.block_info.number ≤ s.unsafe_head.block_info.number ∧
  s.local_safe_head.block_info.number ≤ s.cross_unsafe_head.block_info.number ∧
  s.safe_head.block_info.number ≤ s.local_safe_head.block_info.number ∧
  s.finalized_head.block_info.number ≤ s.safe_head.block_info.number

instance (s : EngineState) : Decidable s.ordered := by
  unfold EngineState.ordered; infer_instance

/-- The engine client, modelled as a stateless oracle: one response function
per versioned Engine API method the Build Task invokes. Transport failures
are `Except.error` carrying the error text. The extra
`fork_choice_updated_no_attrs` entry is modelled from the spec: it is the
attribute-less forkchoice update issued by the Forkchoice Task (outside
`src/`), whose own version selection the spec leaves to the task. -/
structure EngineClient where
  fork_choice_updated_v1 :
    ForkchoiceState → Option PayloadAttributes → Except String ForkchoiceUpdated
  fork_choice_updated_v2 :
    ForkchoiceState → Option OpPayloadAttributes → Except String ForkchoiceUpdated
  fork_choice_updated_v3 :
    ForkchoiceState → Option OpPayloadAttributes → Except String ForkchoiceUpdated
  get_payload_v2 : PayloadId → Except String OpExecutionPayloadEnvelopeV2
  get_payload_v3 : PayloadId → Except String OpExecutionPayloadEnvelopeV3
  get_payload_v4 : PayloadId → Except String OpExecutionPayloadEnvelopeV4
  new_payload_v1 : ExecutionPayloadV1 → Except String PayloadStatusEnum
  new_payload_v2 : ExecutionPayloadInputV2 → Except String PayloadStatusEnum
  new_payload_v3 : ExecutionPayloadV3 → Hash → Except String PayloadStatusEnum
  new_payload_v4 : ExecutionPayloadV4 → Hash → Except String PayloadStatusEnum
  fork_choice_updated_no_attrs : ForkchoiceState → Except String PayloadStatusEnum

/-- A bounded mpsc sender, reduced to the one observable the core reacts to:
whether the receiving side is closed (a send then fails). -/
structure MpscSender where
  closed : Bool
deriving DecidableEq, Repr

/-- Observable events of a Build / Forkchoice Task run, in execution order. -/
inductive Event where
  | fcuWithAttrs (version : EngineForkchoiceVersion) (fcs : ForkchoiceState)
  | getPayloadCall (version : EngineGetPayloadVersion) (id : PayloadId)
  | newPayloadCall (version : EngineNewPayloadVersion) (payload : OpExecutionPayload)
  | setUnsafeHead (b : L2BlockInfo)
  | setCrossUnsafeHead (b : L2BlockInfo)
  | setLocalSafeHead (b : L2BlockInfo)
  | setSafeHead (b : L2BlockInfo)
  | fcuNoAttrs (fcs : ForkchoiceState)
  | payloadSent (envelope : OpExecutionPayloadEnvelope)
deriving DecidableEq, Repr

/-- The Build Task's error type (`BuildTaskError`). RPC / validation error
payloads are carried as strings. -/
inductive BuildTaskError where
  | ForkchoiceUpdateFailed (e : String)
  | EngineSyncing
  | MissingPayloadId
  | UnexpectedPayloadStatus (s : PayloadStatusEnum)
  | GetPayloadFailed (e : String)
  | NewPayloadFailed (e : String)
  | FromPayload (e : String)
  | DepositOnlyPayloadFailed
  | DepositOnlyPayloadReattemptFailed
  | HoloceneInvalidFlush
  | MpscSend
  | FinalizedAheadOfUnsafe (unsafe_number finalized_number : Nat)
deriving DecidableEq, Repr

/-- Modelled from the spec: the engine task error type into which both the
Build Task's and the canonicalizing Forkchoice Task's failures are lifted
(`EngineTaskError`, outside `src/`). The Forkchoice Task observes the same
payload-status contract as the Build Task's FCU. -/
inductive EngineTaskError where
  | build (e : BuildTaskError)
  | forkchoiceRpcFailed (e : String)
  | forkchoiceSyncing
  | forkchoiceInvalid (validation_error : String)
  | forkchoiceUnexpectedStatus (s : PayloadStatusEnum)
deriving DecidableEq, Repr

/-- Errors the Forkchoice Task can raise (used by frame-effect claims). -/
def EngineTaskError.isForkchoiceTaskError : EngineTaskError → Bool
  | .forkchoiceRpcFailed _ => true
  | .forkchoiceSyncing => true
  | .forkchoiceInvalid _ => true
  | .forkchoiceUnexpectedStatus _ => true
  | .build _ => false

/-- The Forkchoice Task: canonicalizes the currently materialized heads
(`ForkchoiceTask`, outside `src/`; modelled from the spec §4.2). -/
structure ForkchoiceTask where
  engine : EngineClient

/-- Constructor mirroring `ForkchoiceTask::new`. -/
def ForkchoiceTask.new (engine : EngineClient) : ForkchoiceTask :=
  { engine := engine }

/-- Modelled from the spec: the Forkchoice Task (§4.2, outside `src/`) issues
an attribute-less forkchoice update at the currently materialized heads to
canonicalize a freshly imported block. `VALID` is promoted to success,
`SYNCING` is a transient failure, `INVALID` is fatal for the attempt, and any
other status is unexpected. It leaves the head tower unchanged. -/
def ForkchoiceTask.execute (task : ForkchoiceTask) (state : EngineState) :
    List Event × Except EngineTaskError Unit :=
  let fcs := state.create_forkchoice_state
  let tr := [Event.fcuNoAttrs fcs]
  match task.engine.fork_choice_updated_no_attrs fcs with
  | .error e => (tr, .error (.forkchoiceRpcFailed e))
  | .ok .valid => (tr, .ok ())
  | .ok .syncing => (tr, .error .forkchoiceSyncing)
  | .ok (.invalid validation_error) => (tr, .error (.forkchoiceInvalid validation_error))
  | .ok s => (tr, .error (.forkchoiceUnexpectedStatus s))

/-- The Build Task (`task.rs` lines 22-35): engine client, rollup config,
the attributes to build, the derived flag, and the optional outbound payload
channel. -/
structure BuildTask where
  engine : EngineClient
  cfg : RollupConfig
  attributes : OpAttributesWithParent
  is_attributes_derived : Bool
  payload_tx : Option MpscSender

/-- Constructor mirroring `BuildTask::new` (`task.rs` lines 38-47). -/
def BuildTask.new (engine : EngineClient) (cfg : RollupConfig)
    (attributes : OpAttributesWithParent) (is_attributes_derived : Bool)
    (payload_tx : Option MpscSender) : BuildTask :=
  { engine := engine, cfg := cfg, attributes := attributes,
    is_attributes_derived := is_attributes_derived, payload_tx := payload_tx }

/-- `BuildTask::start_build` (`task.rs` lines 66-137): the initial
`engine_forkchoiceUpdated` call carrying the payload attributes. The version
is selected from the attribute timestamp; V1 submits only the inner Ethereum
payload attributes. `VALID` yields the payload id (its absence is
`MissingPayloadId`), `INVALID` fails with the validation text, `SYNCING`
fails with `EngineSyncing`, anything else with `UnexpectedPayloadStatus`. -/
def BuildTask.start_build (t : BuildTask) (engine_client : EngineClient)
    (forkchoice : ForkchoiceState) (attributes_envelope : OpAttributesWithParent) :
    List Event × Except BuildTaskError PayloadId :=
  let forkchoice_version :=
    EngineForkchoiceVersion.from_cfg t.cfg
      attributes_envelope.inner.payload_attributes.timestamp
  let tr := [Event.fcuWithAttrs forkchoice_version forkchoice]
  let update :=
    match forkchoice_version with
    | .V3 => engine_client.fork_choice_updated_v3 forkchoice (some attributes_envelope.inner)
    | .V2 => engine_client.fork_choice_updated_v2 forkchoice (some attributes_envelope.inner)
    | .V1 =>
      engine_client.fork_choice_updated_v1 forkchoice
        (some attributes_envelope.inner.payload_attributes)
  match update with
  | .error e => (tr, .error (.ForkchoiceUpdateFailed e))
  | .ok update =>
    match update.payload_status with
    | .valid =>
      (tr,
        match update.payload_id with
        | some payload_id => .ok payload_id
        | none => .error .MissingPayloadId)
    | .invalid validation_error => (tr, .error (.ForkchoiceUpdateFailed validation_error))
    | .syncing => (tr, .error .EngineSyncing)
    | s => (tr, .error (.UnexpectedPayloadStatus s))

/-- The payload-fetch / import dispatch section of
`BuildTask::fetch_and_import_payload` (`task.rs` lines 157-257): select the
get-payload version from the payload timestamp, fetch the payload envelope,
and submit it to the matching `engine_newPayload` version — in particular a
V2 get-payload response containing a V1 payload is submitted via
`engine_newPayloadV1`. Returns the constructed payload envelope together
with the raw new-payload status; the status handling (lines 259-308) is
inlined in `BuildTask.execute` because it recursively re-executes the task. -/
def BuildTask.fetch_payload_part (cfg : RollupConfig) (engine : EngineClient)
    (payload_id : PayloadId) (payload_attrs : OpAttributesWithParent) :
    List Event × Except BuildTaskError (OpExecutionPayloadEnvelope × PayloadStatusEnum) :=
  let payload_timestamp := payload_attrs.inner.payload_attributes.timestamp
  let get_payload_version := EngineGetPayloadVersion.from_cfg cfg payload_timestamp
  match get_payload_version with
  | .V4 =>
    match engine.get_payload_v4 payload_id with
    | .error e => ([Event.getPayloadCall .V4 payload_id], .error (.GetPayloadFailed e))
    | .ok payload =>
      let tr := [Event.getPayloadCall .V4 payload_id,
        Event.newPayloadCall .V4 (.V4 payload.execution_payload)]
      match engine.new_payload_v4 payload.execution_payload payload.parent_beacon_block_root with
      | .error e => (tr, .error (.NewPayloadFailed e))
      | .ok response =>
        (tr, .ok ({ parent_beacon_block_root := some payload.parent_beacon_block_root,
                    payload := .V4 payload.execution_payload }, response))
  | .V3 =>
    match engine.get_payload_v3 payload_id with
    | .error e => ([Event.getPayloadCall .V3 payload_id], .error (.GetPayloadFailed e))
    | .ok payload =>
      let tr := [Event.getPayloadCall .V3 payload_id,
        Event.newPayloadCall .V3 (.V3 payload.execution_payload)]
      match engine.new_payload_v3 payload.execution_payload payload.parent_beacon_block_root with
      | .error e => (tr, .error (.NewPayloadFailed e))
      | .ok response =>
        (tr, .ok ({ parent_beacon_block_root := some payload.parent_beacon_block_root,
                    payload := .V3 payload.execution_payload }, response))
  | .V2 =>
    match engine.get_payload_v2 payload_id with
    | .error e => ([Event.getPayloadCall .V2 payload_id], .error (.GetPayloadFailed e))
    | .ok payload =>
      match payload.execution_payload with
      | .v2 p =>
        let payload_input : ExecutionPayloadInputV2 :=
          { execution_payload := p.payload_inner, withdrawals := some p.withdrawals }
        let tr := [Event.getPayloadCall .V2 payload_id, Event.newPayloadCall .V2 (.V2 p)]
        match engine.new_payload_v2 payload_input with
        | .error e => (tr, .error (.NewPayloadFailed e))
        | .ok response =>
          (tr, .ok ({ parent_beacon_block_root := none, payload := .V2 p }, response))
      | .v1 p =>
        let tr := [Event.getPayloadCall .V2 payload_id, Event.newPayloadCall .V1 (.V1 p)]
        match engine.new_payload_v1 p with
        | .error e => (tr, .error (.NewPayloadFailed e))
        | .ok response =>
          (tr, .ok ({ parent_beacon_block_root := none, payload := .V1 p }, response))

/-- `BuildTask::execute` (`task.rs` lines 314-380), with the status-handling
tail of `fetch_and_import_payload` (lines 259-308) inlined at its single call
site (line 339, which passes `self.attributes.clone()` as `payload_attrs`):
entry sanity check, `start_build`, payload fetch / import, the three-way
branch on an `INVALID` import (deposits-only fatal / Holocene deposits-only
re-attempt via a recursive `execute` on the same state / plain failure),
head commits, the canonicalizing Forkchoice Task, and the optional outbound
payload send. The `Nat` argument is recursion fuel for the Holocene
re-attempt; `none` means the fuel was exhausted (two units always suffice).
The INVALID arm is listed before the VALID / SYNCING arms; the source lists
them the other way around, which is equivalent since the constructors are
disjoint. -/
def BuildTask.execute : Nat → BuildTask → EngineState →
    Option (EngineState × List Event × Except EngineTaskError Unit)
  | 0, _, _ => none
  | fuel + 1, t, state =>
    -- Sanity check if the head is behind the finalized head (lines 317-323).
    if state.unsafe_head.block_info.number < state.finalized_head.block_info.number then
      some (state, [],
        .error (.build (.FinalizedAheadOfUnsafe state.unsafe_head.block_info.number
          state.finalized_head.block_info.number)))
    else
      -- Snapshot forkchoice, overwrite head with the attributes' parent (327-328).
      let forkchoice :=
        { state.create_forkchoice_state with
            head_block_hash := t.attributes.parent.block_info.hash }
      match t.start_build t.engine forkchoice t.attributes with
      | (trA, .error e) => some (state, trA, .error (.build e))
      | (trA, .ok payload_id) =>
        match BuildTask.fetch_payload_part t.cfg t.engine payload_id t.attributes with
        | (trB, .error e) => some (state, trA ++ trB, .error (.build e))
        | (trB, .ok (payload_envelope, response)) =>
          match response with
          | .invalid validation_error =>
            -- Three-way branch on INVALID (lines 272-302).
            if t.attributes.is_deposits_only then
              some (state, trA ++ trB, .error (.build .DepositOnlyPayloadFailed))
            else if t.cfg.is_holocene_active t.attributes.inner.payload_attributes.timestamp then
              match BuildTask.execute fuel
                  (BuildTask.new t.engine t.cfg t.attributes.as_deposits_only
                    t.is_attributes_derived t.payload_tx) state with
              | none => none
              | some (state2, tr2, .ok _) =>
                some (state2, trA ++ trB ++ tr2, .error (.build .HoloceneInvalidFlush))
              | some (state2, tr2, .error _) =>
                some (state2, trA ++ trB ++ tr2,
                  .error (.build .DepositOnlyPayloadReattemptFailed))
            else
              some (state, trA ++ trB,
                .error (.build (.NewPayloadFailed validation_error)))
          | .valid | .syncing =>
            -- VALID / SYNCING: lift to an L2 block ref (lines 260-270).
            match L2BlockInfo.from_payload_and_genesis payload_envelope.payload
                t.attributes.inner.payload_attributes.parent_beacon_block_root
                t.cfg.genesis with
            | .error e => some (state, trA ++ trB, .error (.build (.FromPayload e)))
            | .ok new_block_ref =>
              -- Update the engine state (lines 350-356).
              let state1 :=
                (state.set_unsafe_head new_block_ref).set_cross_unsafe_head new_block_ref
              let state2 :=
                if t.is_attributes_derived then
                  (state1.set_local_safe_head new_block_ref).set_safe_head new_block_ref
                else state1
              let trHeads :=
                [Event.setUnsafeHead new_block_ref, Event.setCrossUnsafeHead new_block_ref] ++
                  (if t.is_attributes_derived then
                    [Event.setLocalSafeHead new_block_ref, Event.setSafeHead new_block_ref]
                  else [])
              -- Canonicalize via the Forkchoice Task (line 359).
              match (ForkchoiceTask.new t.engine).execute state2 with
              | (trF, .error e) =>
                some (state2, trA ++ trB ++ trHeads ++ trF, .error e)
              | (trF, .ok _) =>
                -- Optional outbound payload send (lines 362-364).
                match t.payload_tx with
                | none => some (state2, trA ++ trB ++ trHeads ++ trF, .ok ())
                | some tx =>
                  if tx.closed then
                    some (state2, trA ++ trB ++ trHeads ++ trF, .error (.build .MpscSend))
                  else
                    some (state2,
                      trA ++ trB ++ trHeads ++ trF ++ [Event.payloadSent payload_envelope],
                      .ok ())
          | s => some (state, trA ++ trB, .error (.build (.UnexpectedPayloadStatus s)))

/-! Derivation actor state (`derivation.rs`). The pipeline is an external
collaborator (`kona_derive`, outside `src/`): it is modelled as an abstract
interface over an opaque pipeline-state type `σ`, mirroring the capabilities
the Derivation State uses: `step`, `next`, `signal`, `origin`,
`rollup_config`, `system_config_by_number`. -/

/-- Modelled from the spec: the L1 system configuration, opaque to the core. -/
structure SystemConfig where
  cfg_data : Nat
deriving DecidableEq, Repr

/-- Pipeline signals (`kona_derive::Signal`): reset, hard-fork activation,
channel flush. -/
inductive Signal where
  | reset (l1_origin : BlockInfo) (system_config : Option SystemConfig)
      (l2_safe_head : L2BlockInfo)
  | activation (l1_origin : BlockInfo) (system_config : Option SystemConfig)
      (l2_safe_head : L2BlockInfo)
  | flushChannel
deriving DecidableEq, Repr

/-- Pipeline errors (`kona_derive::PipelineError`), abstracted to the
variants the core distinguishes plus an opaque remainder. -/
inductive PipelineError where
  | notEnoughData
  | missingOrigin
  | other (code : Nat)
deriving DecidableEq, Repr

/-- Reset error kinds (`kona_derive::ResetError`), abstracted to the variants
the core distinguishes plus an opaque remainder. -/
inductive ResetError where
  | holoceneActivation
  | reorgDetected (expected new_hash : Hash)
  | other (code : Nat)
deriving DecidableEq, Repr

/-- Classified pipeline error (`kona_derive::PipelineErrorKind`). -/
inductive PipelineErrorKind where
  | temporary (e : PipelineError)
  | reset (e : ResetError)
  | critical (e : PipelineError)
deriving DecidableEq, Repr

/-- `PipelineError::crit()`: lift a pipeline error to a critical kind. -/
def PipelineError.crit (e : PipelineError) : PipelineErrorKind :=
  .critical e

/-- Result of one pipeline step (`kona_derive::StepResult`). -/
inductive StepResult where
  | preparedAttributes
  | advancedOrigin
  | originAdvanceErr (e : PipelineErrorKind)
  | stepFailed (e : PipelineErrorKind)
deriving DecidableEq, Repr

/-- The pipeline interface the Derivation State is polymorphic over
(`Pipeline + SignalReceiver`), as a table of operations on an opaque
pipeline state `σ`. Mutating operations thread `σ` explicitly. -/
structure PipelineImpl (σ : Type) where
  step : σ → L2BlockInfo → StepResult × σ
  next : σ → Option OpAttributesWithParent × σ
  signal : σ → Signal → Except PipelineErrorKind Unit × σ
  origin : σ → Option BlockInfo
  system_config_by_number : σ → Nat → Except PipelineErrorKind SystemConfig × σ
  rollup_config : RollupConfig

/-- `DerivationState` (`derivation.rs` lines 38-50): the pipeline state plus
the two loop flags. -/
structure DerivationState (σ : Type) where
  pipeline : σ
  derivation_idle : Bool
  waiting_for_signal : Bool
deriving DecidableEq, Repr

/-- `DerivationState::new` (`derivation.rs` lines 105-107): derivation starts
idle and not waiting for a signal. -/
def DerivationState.new {σ : Type} (pipeline : σ) : DerivationState σ :=
  { pipeline := pipeline, derivation_idle := true, waiting_for_signal := false }

/-- A tokio-style watch receiver, reduced to the observables the core uses:
the latched value, whether an unseen change is pending (`has_changed`), and
whether the sender side is closed (which makes `has_changed` fail). -/
structure WatchReceiver where
  value : L2BlockInfo
  changed : Bool
  closed : Bool
deriving DecidableEq, Repr

/-- `watch::Receiver::has_changed`: errors iff the sender is closed. -/
def WatchReceiver.has_changed (w : WatchReceiver) : Except Unit Bool :=
  if w.closed then .error () else .ok w.changed

/-- `watch::Receiver::borrow_and_update`: marks the current value as seen. -/
def WatchReceiver.borrow_and_update (w : WatchReceiver) : WatchReceiver :=
  { w with changed := false }

/-- Observable events of a derivation-state call, in execution order. -/
inductive DEvent where
  | stepped (l2_safe_head : L2BlockInfo)
  | pipelineSignal (s : Signal)
  | resetRequested
  | attrsSent (attrs : OpAttributesWithParent)
deriving DecidableEq, Repr

/-- `DerivationError` (`derivation.rs` lines 412-429). The boxed sender
error detail is dropped. -/
inductive DerivationError where
  | pipeline (e : PipelineErrorKind)
  | yield_
  | sender
  | signalReceiveFailed
  | l2SafeHeadReceiveFailed
deriving DecidableEq, Repr

/-- `InboundDerivationMessage` (`derivation.rs` lines 402-409). -/
inductive InboundDerivationMessage where
  | newDataAvailable
  | safeHeadUpdated
deriving DecidableEq, Repr

/-- `DerivationState::produce_next_attributes` (`derivation.rs` lines
125-222): the stepping loop. Each iteration reads the safe head from the
watch, steps the pipeline, classifies errors — `Temporary(NotEnoughData)`
continues without consulting the attributes queue, other temporaries yield,
`Reset(HoloceneActivation)` sends an Activation signal to the pipeline and
continues, other resets request an engine reset (when interop is inactive)
and yield with `waiting_for_signal` set, criticals are fatal — and otherwise
consults `pipeline.next()` for produced attributes. The `Nat` argument is
loop fuel; `none` means the fuel was exhausted before the loop returned. -/
def DerivationState.produce_next_attributes {σ : Type} (P : PipelineImpl σ) :
    Nat → DerivationState σ → WatchReceiver → MpscSender →
    Option (DerivationState σ × List DEvent × Except DerivationError OpAttributesWithParent)
  | 0, _, _, _ => none
  | fuel + 1, st, engine_l2_safe_head, reset_request_tx =>
    let l2_safe_head := engine_l2_safe_head.value
    match P.step st.pipeline l2_safe_head with
    | (stepRes, pst1) =>
      let tr0 := [DEvent.stepped l2_safe_head]
      -- Fall-through to the attributes-queue check at the loop's tail
      -- (`if let Some(attrs) = self.pipeline.next()`, lines 218-220).
      let continueWith : σ → List DEvent →
          Option (DerivationState σ × List DEvent ×
            Except DerivationError OpAttributesWithParent) :=
        fun pst tr =>
          match P.next pst with
          | (some attrs, pst2) => some ({ st with pipeline := pst2 }, tr, .ok attrs)
          | (none, pst2) =>
            (DerivationState.produce_next_attributes P fuel { st with pipeline := pst2 }
                engine_l2_safe_head reset_request_tx).map
              (fun out => (out.1, tr ++ out.2.1, out.2.2))
      match stepRes with
      | .preparedAttributes => continueWith pst1 tr0
      | .advancedOrigin =>
        match P.origin pst1 with
        | none =>
          some ({ st with pipeline := pst1 }, tr0,
            .error (.pipeline PipelineError.missingOrigin.crit))
        | some _ => continueWith pst1 tr0
      | .originAdvanceErr e | .stepFailed e =>
        match e with
        | .temporary pe =>
          match pe with
          | .notEnoughData =>
            -- `continue`: skips the attributes-queue check (lines 149-151).
            (DerivationState.produce_next_attributes P fuel { st with pipeline := pst1 }
                engine_l2_safe_head reset_request_tx).map
              (fun out => (out.1, tr0 ++ out.2.1, out.2.2))
          | _ => some ({ st with pipeline := pst1 }, tr0, .error .yield_)
        | .reset re =>
          match P.system_config_by_number pst1 l2_safe_head.block_info.number with
          | (.error pe, pst2) =>
            some ({ st with pipeline := pst2 }, tr0, .error (.pipeline pe))
          | (.ok system_config, pst2) =>
            match re with
            | .holoceneActivation =>
              match P.origin pst2 with
              | none =>
                some ({ st with pipeline := pst2 }, tr0,
                  .error (.pipeline PipelineError.missingOrigin.crit))
              | some l1_origin =>
                let sig := Signal.activation l1_origin (some system_config) l2_safe_head
                match P.signal pst2 sig with
                | (.error pe, pst3) =>
                  some ({ st with pipeline := pst3 }, tr0 ++ [DEvent.pipelineSignal sig],
                    .error (.pipeline pe))
                | (.ok _, pst3) => continueWith pst3 (tr0 ++ [DEvent.pipelineSignal sig])
            | _ =>
              -- Reset request is sent only when interop is not active
              -- (lines 194-203); a send failure returns before the
              -- waiting flag is set.
              if P.rollup_config.is_interop_active l2_safe_head.block_info.timestamp then
                some ({ st with pipeline := pst2, waiting_for_signal := true }, tr0,
                  .error .yield_)
              else if reset_request_tx.closed then
                some ({ st with pipeline := pst2 }, tr0, .error .sender)
              else
                some ({ st with pipeline := pst2, waiting_for_signal := true },
                  tr0 ++ [DEvent.resetRequested], .error .yield_)
        | .critical _ =>
          some ({ st with pipeline := pst1 }, tr0, .error (.pipeline e))

/-- `DerivationState::process` (`derivation.rs` lines 236-305): the guard
cascade (EL sync complete, waiting-for-signal, safe-head-change check,
zero-hash check) followed by the stepping loop; on produced attributes the
idle flag is cleared, the watch is marked seen, and the attributes are sent
downstream (a send failure is fatal). Returns the updated state, the updated
watch receiver, the event trace, and the result. -/
def DerivationState.process {σ : Type} (P : PipelineImpl σ) (fuel : Nat)
    (st : DerivationState σ) (msg : InboundDerivationMessage)
    (engine_l2_safe_head : WatchReceiver) (el_sync_complete_terminated : Bool)
    (attributes_out : MpscSender) (reset_request_tx : MpscSender) :
    Option (DerivationState σ × WatchReceiver × List DEvent ×
      Except DerivationError Unit) :=
  -- Only attempt derivation once the engine finishes syncing (lines 245-251).
  if ¬ el_sync_complete_terminated then
    some (st, engine_l2_safe_head, [], .ok ())
  else if st.waiting_for_signal then
    some (st, engine_l2_safe_head, [], .ok ())
  else
    -- Safe-head-change guard (lines 256-268).
    let guard_result : Except DerivationError Bool :=
      if ¬ (st.derivation_idle || msg = InboundDerivationMessage.safeHeadUpdated) then
        match engine_l2_safe_head.has_changed with
        | .ok true => .ok true
        | .ok false => .ok false
        | .error _ => .error .l2SafeHeadReceiveFailed
      else .ok true
    match guard_result with
    | .error e => some (st, engine_l2_safe_head, [], .error e)
    | .ok false => some (st, engine_l2_safe_head, [], .ok ())
    | .ok true =>
      -- Zero-hash guard (lines 271-275).
      let engine_safe_head := engine_l2_safe_head.value
      if engine_safe_head.block_info.hash = 0 then
        some (st, engine_l2_safe_head, [], .ok ())
      else
        match DerivationState.produce_next_attributes P fuel st engine_l2_safe_head
            reset_request_tx with
        | none => none
        | some (st1, tr, .error .yield_) =>
          -- Yield until more data is available (lines 282-285).
          some ({ st1 with derivation_idle := true }, engine_l2_safe_head, tr, .ok ())
        | some (st1, tr, .error e) => some (st1, engine_l2_safe_head, tr, .error e)
        | some (st1, tr, .ok payload_attrs) =>
          -- Mark busy, mark the safe head seen, then send (lines 292-302).
          let st2 := { st1 with derivation_idle := false }
          let watch2 := engine_l2_safe_head.borrow_and_update
          if attributes_out.closed then
            some (st2, watch2, tr, .error .sender)
          else
            some (st2, watch2, tr ++ [DEvent.attrsSent payload_attrs], .ok ())

/-! Concrete fixtures used by witnesses and counterexamples. -/

/-- A concrete block info with number `n`. -/
def biF (n : Nat) : BlockInfo :=
  { number := n, hash := n + 100, parent_hash := n + 99, timestamp := 2 * n }

/-- A concrete L2 block reference with number `n`. -/
def l2F (n : Nat) : L2BlockInfo :=
  { block_info := biF n, l1_origin_number := 0, l1_origin_hash := 1, seq_num := 0 }

/-- A concrete engine client: the FCU-with-attributes answers `VALID` with a
payload id that distinguishes deposits-only attribute sets (id 2) from mixed
ones (id 1); `getPayloadV3` echoes the payload id into the payload;
`newPayloadV3` answers `INVALID` exactly for the mixed-attributes payload;
the attribute-less FCU answers `VALID`. -/
def clientF : EngineClient :=
  { fork_choice_updated_v1 := fun _ _ => .error "unused"
    fork_choice_updated_v2 := fun _ _ => .error "unused"
    fork_choice_updated_v3 := fun _ a =>
      .ok { payload_status := .valid
            payload_id := some (match a with
              | some a0 => if (a0.transactions.getD []).all (·.isDeposit) then 2 else 1
              | none => 0) }
    get_payload_v2 := fun _ => .error "unused"
    get_payload_v3 := fun pid =>
      .ok { execution_payload := { block_data := pid }, parent_beacon_block_root := 7 }
    get_payload_v4 := fun _ => .error "unused"
    new_payload_v1 := fun _ => .error "unused"
    new_payload_v2 := fun _ => .error "unused"
    new_payload_v3 := fun p _ => if p.block_data = 1 then .ok (.invalid "bad tx") else .ok .valid
    new_payload_v4 := fun _ _ => .error "unused"
    fork_choice_updated_no_attrs := fun _ => .ok .valid }

/-- A concrete rollup config with Canyon, Ecotone and Holocene active from
genesis, Isthmus and Interop unscheduled; the genesis lift maps a V3 payload
with data `d` to the L2 block with number `d + 50`. -/
def cfgF : RollupConfig :=
  { canyon_time := some 0, ecotone_time := some 0, holocene_time := some 0,
    isthmus_time := none, interop_time := none,
    genesis := { from_payload := fun p _ =>
      match p with
      | .V3 q => .ok (l2F (q.block_data + 50))
      | _ => .error "genesis" } }

/-- Mixed attributes: one user transaction and one deposit — not
deposits-only. -/
def attrsF : OpAttributesWithParent :=
  { inner := { payload_attributes := { timestamp := 10, parent_beacon_block_root := some 7 },
               transactions := some [{ isDeposit := false, payload := 5 },
                 { isDeposit := true, payload := 6 }] }
    parent := l2F 8 }

/-- A well-ordered concrete engine state. -/
def stF : EngineState :=
  { unsafe_head := l2F 8, cross_unsafe_head := l2F 7, local_safe_head := l2F 6,
    safe_head := l2F 5, finalized_head := l2F 4 }

/-- A concrete engine state whose finalized head is ahead of its unsafe
head. -/
def stBadF : EngineState :=
  { unsafe_head := l2F 3, cross_unsafe_head := l2F 3, local_safe_head := l2F 3,
    safe_head := l2F 3, finalized_head := l2F 9 }

/-- The concrete build task over the fixtures, derived attributes, open
outbound channel. -/
def taskF : BuildTask :=
  BuildTask.new clientF cfgF attrsF true (some { closed := false })

/-! Helper lemmas shared across the claims. -/

theorem forkchoiceTask_error_shape (task : ForkchoiceTask) (state : EngineState)
    (tr : List Event) (e : EngineTaskError)
    (h : task.execute state = (tr, .error e)) : e.isForkchoiceTaskError = true := by
  simp only [ForkchoiceTask.execute] at h
  split at h <;> simp at h <;> obtain ⟨h1, h2⟩ := h <;> subst_vars <;>
    simp [EngineTaskError.isForkchoiceTaskError]

/-- Errors `start_build` can produce. -/
def BuildTaskError.isStartBuildError : BuildTaskError → Bool
  | .ForkchoiceUpdateFailed _ => true
  | .EngineSyncing => true
  | .MissingPayloadId => true
  | .UnexpectedPayloadStatus _ => true
  | _ => false

/-- Errors the fetch / import dispatch can produce. -/
def BuildTaskError.isFetchPartError : BuildTaskError → Bool
  | .GetPayloadFailed _ => true
  | .NewPayloadFailed _ => true
  | _ => false

theorem start_build_error_class (t : BuildTask) (ec : EngineClient)
    (fcs : ForkchoiceState) (attrs : OpAttributesWithParent) (tr : List Event)
    (e : BuildTaskError) (h : t.start_build ec fcs attrs = (tr, .error e)) :
    e.isStartBuildError = true := by
  simp only [BuildTask.start_build] at h
  split at h <;> try split at h
  all_goals try split at h
  all_goals first
    | (simp at h; obtain ⟨h1, h2⟩ := h; subst_vars;
       simp [BuildTaskError.isStartBuildError])
    | simp at h

theorem start_build_trace (t : BuildTask) (ec : EngineClient)
    (fcs : ForkchoiceState) (attrs : OpAttributesWithParent) :
    (t.start_build ec fcs attrs).1 =
      [Event.fcuWithAttrs
        (EngineForkchoiceVersion.from_cfg t.cfg attrs.inner.payload_attributes.timestamp)
        fcs] := by
  simp only [BuildTask.start_build]
  split <;> try split
  all_goals rfl

theorem fetch_payload_part_error_class (cfg : RollupConfig) (ec : EngineClient)
    (pid : PayloadId) (attrs : OpAttributesWithParent) (tr : List Event)
    (e : BuildTaskError)
    (h : BuildTask.fetch_payload_part cfg ec pid attrs = (tr, .error e)) :
    e.isFetchPartError = true := by
  simp only [BuildTask.fetch_payload_part] at h
  split at h <;> split at h <;> try split at h
  all_goals try split at h
  all_goals first
    | (simp at h; obtain ⟨h1, h2⟩ := h; subst_vars;
       simp [BuildTaskError.isFetchPartError])
    | simp at h

theorem fetch_payload_part_no_payloadSent (cfg : RollupConfig) (ec : EngineClient)
    (pid : PayloadId) (attrs : OpAttributesWithParent)
    (x : OpExecutionPayloadEnvelope) :
    Event.payloadSent x ∉ (BuildTask.fetch_payload_part cfg ec pid attrs).1 := by
  simp only [BuildTask.fetch_payload_part]
  split <;> split <;> try split
  all_goals try split
  all_goals simp

/-- Claim C5: `BuildTask::execute` fails with `FinalizedAheadOfUnsafe` —
before issuing any Engine API call or mutating state — if and only if at
entry `state.unsafe_head.number < state.finalized_head.number`. -/
theorem C5_finalized_ahead_check (fuel : Nat) (t : BuildTask) (s : EngineState) :
    (s.unsafe_head.block_info.number < s.finalized_head.block_info.number →
      BuildTask.execute (fuel + 1) t s =
        some (s, [], .error (.build (.FinalizedAheadOfUnsafe
          s.unsafe_head.block_info.number s.finalized_head.block_info.number)))) ∧
    (¬ s.unsafe_head.block_info.number < s.finalized_head.block_info.number →
      ∀ s2 tr a b,
        BuildTask.execute fuel t s =
          some (s2, tr, .error (.build (.FinalizedAheadOfUnsafe a b))) → False) := by
  constructor
  · intro hlt
    simp [BuildTask.execute, hlt]
  · intro hge s2 tr a b h
    match fuel with
    | 0 => simp [BuildTask.execute] at h
    | fuel + 1 =>
      simp only [BuildTask.execute] at h
      rw [if_neg hge] at h
      split at h
      case _ trA e hA =>
        have hcls := start_build_error_class _ _ _ _ _ _ hA
        simp_all [BuildTaskError.isStartBuildError]
      case _ trA payload_id hA =>
        split at h
        case _ trB e hB =>
          have hcls := fetch_payload_part_error_class _ _ _ _ _ _ hB
          simp_all [BuildTaskError.isFetchPartError]
        case _ trB payload_envelope response hB =>
          split at h
          · -- INVALID branch
            split at h
            · simp_all
            · split at h
              · split at h <;> simp_all
              · simp_all
          · -- VALID import branch
            split at h
            · simp_all
            · split at h
              case _ trF e hF =>
                have hcls := forkchoiceTask_error_shape _ _ _ _ hF
                simp_all [EngineTaskError.isForkchoiceTaskError]
              case _ trF u hF =>
                split at h
                · simp_all
                · split at h <;> simp_all
          · -- SYNCING import branch
            split at h
            · simp_all
            · split at h
              case _ trF e hF =>
                have hcls := forkchoiceTask_error_shape _ _ _ _ hF
                simp_all [EngineTaskError.isForkchoiceTaskError]
              case _ trF u hF =>
                split at h
                · simp_all
                · split at h <;> simp_all
          · simp_all

/-- Witness for C5 at concrete inputs: on a state whose finalized head (9)
is ahead of its unsafe head (3), `execute` fails immediately with
`FinalizedAheadOfUnsafe`, with no events and no state change. -/
theorem C5_finalized_ahead_check_witness :
    stBadF.unsafe_head.block_info.number < stBadF.finalized_head.block_info.number ∧
    BuildTask.execute 1 taskF stBadF =
      some (stBadF, [], .error (.build (.FinalizedAheadOfUnsafe
        stBadF.unsafe_head.block_info.number stBadF.finalized_head.block_info.number))) :=
  ⟨by decide, (C5_finalized_ahead_check 0 taskF stBadF).1 (by decide)⟩

/-- Claim C2: when `newPayload` reports INVALID during a Build Task, the
outcome is a three-way branch on the attributes: if they are already
deposits-only, `execute` fails with `DepositOnlyPayloadFailed`; otherwise,
if Holocene is active at the attributes' timestamp, a new Build Task with
`as_deposits_only()` attributes and the same other fields is recursively
executed against the same state, the outer call returning
`HoloceneInvalidFlush` if the re-attempt succeeds and
`DepositOnlyPayloadReattemptFailed` if it fails; otherwise `execute` fails
with `NewPayloadFailed` carrying the validation error. -/
theorem C2_invalid_three_way (fuel : Nat) (t : BuildTask) (s : EngineState)
    (trA trB : List Event) (payload_id : PayloadId)
    (payload_envelope : OpExecutionPayloadEnvelope) (validation_error : String)
    (hpre : ¬ s.unsafe_head.block_info.number < s.finalized_head.block_info.number)
    (hA : t.start_build t.engine
        { s.create_forkchoice_state with
            head_block_hash := t.attributes.parent.block_info.hash } t.attributes =
      (trA, .ok payload_id))
    (hB : BuildTask.fetch_payload_part t.cfg t.engine payload_id t.attributes =
      (trB, .ok (payload_envelope, .invalid validation_error))) :
    BuildTask.execute (fuel + 1) t s =
      if t.attributes.is_deposits_only then
        some (s, trA ++ trB, .error (.build .DepositOnlyPayloadFailed))
      else if t.cfg.is_holocene_active t.attributes.inner.payload_attributes.timestamp then
        match BuildTask.execute fuel
            (BuildTask.new t.engine t.cfg t.attributes.as_deposits_only
              t.is_attributes_derived t.payload_tx) s with
        | none => none
        | some (s2, tr2, .ok _) =>
          some (s2, trA ++ trB ++ tr2, .error (.build .HoloceneInvalidFlush))
        | some (s2, tr2, .error _) =>
          some (s2, trA ++ trB ++ tr2, .error (.build .DepositOnlyPayloadReattemptFailed))
      else
        some (s, trA ++ trB, .error (.build (.NewPayloadFailed validation_error))) := by
  simp only [BuildTask.execute]
  rw [if_neg hpre, hA]
  dsimp only
  rw [hB]

/-- The engine state after the fixture run commits the deposits-only block
(number 52) as a derived block: all four upper heads move to it. -/
def stCommitF : EngineState :=
  { unsafe_head := l2F 52, cross_unsafe_head := l2F 52, local_safe_head := l2F 52,
    safe_head := l2F 52, finalized_head := l2F 4 }

/-- The full event trace of the fixture run: outer FCU / getPayload /
newPayload (INVALID), then the deposits-only re-attempt's FCU / getPayload /
newPayload, head commits, canonicalizing FCU, and the outbound send. -/
def trHoloF : List Event :=
  [Event.fcuWithAttrs .V3 ⟨108, 105, 104⟩,
   Event.getPayloadCall .V3 1,
   Event.newPayloadCall .V3 (.V3 ⟨1⟩),
   Event.fcuWithAttrs .V3 ⟨108, 105, 104⟩,
   Event.getPayloadCall .V3 2,
   Event.newPayloadCall .V3 (.V3 ⟨2⟩),
   Event.setUnsafeHead (l2F 52), Event.setCrossUnsafeHead (l2F 52),
   Event.setLocalSafeHead (l2F 52), Event.setSafeHead (l2F 52),
   Event.fcuNoAttrs ⟨152, 152, 104⟩,
   Event.payloadSent ⟨some 7, .V3 ⟨2⟩⟩]

/-- Witness for C2 at concrete inputs: on the fixtures, the first import is
INVALID, Holocene is active, the deposits-only re-attempt succeeds, and the
outer call returns `HoloceneInvalidFlush` over the re-attempt's state. -/
theorem C2_invalid_three_way_witness :
    BuildTask.execute 2 taskF stF =
      some (stCommitF, trHoloF, .error (.build .HoloceneInvalidFlush)) :=
  (C2_invalid_three_way 1 taskF stF _ _ 1 _ "bad tx" (by decide) rfl rfl).trans (by rfl)

theorem fcuVersion_formula (cfg : RollupConfig) (t : Nat) :
    EngineForkchoiceVersion.from_cfg cfg t =
      if cfg.is_ecotone_active t then .V3
      else if cfg.is_canyon_active t then .V2
      else .V1 := rfl

theorem getPayloadVersion_formula (cfg : RollupConfig) (t : Nat) :
    EngineGetPayloadVersion.from_cfg cfg t =
      if cfg.is_isthmus_active t then .V4
      else if cfg.is_ecotone_active t then .V3
      else .V2 := rfl

/-- Claim C3: for every attribute set submitted by the Build Task with
timestamp `t`, the Engine API version used is the one the fork predicates at
`t` mandate — the forkchoice-updated call uses V3 if Ecotone is active, else
V2 if Canyon is active, else V1; getPayload uses V4 if Isthmus is active, V3
if Ecotone is active, else V2; and every newPayload call submits the fetched
payload at its own version (so a V2 getPayload response containing a V1
payload is submitted via newPayloadV1). -/
theorem C3_engine_api_versions :
    (∀ (t : BuildTask) (ec : EngineClient) (fcs : ForkchoiceState)
        (attrs : OpAttributesWithParent),
      (t.start_build ec fcs attrs).1 =
        [Event.fcuWithAttrs
          (if t.cfg.is_ecotone_active attrs.inner.payload_attributes.timestamp then .V3
           else if t.cfg.is_canyon_active attrs.inner.payload_attributes.timestamp then .V2
           else .V1) fcs]) ∧
    (∀ (cfg : RollupConfig) (ec : EngineClient) (pid : PayloadId)
        (attrs : OpAttributesWithParent) (v : EngineGetPayloadVersion) (id : PayloadId),
      Event.getPayloadCall v id ∈ (BuildTask.fetch_payload_part cfg ec pid attrs).1 →
        v = (if cfg.is_isthmus_active attrs.inner.payload_attributes.timestamp then .V4
             else if cfg.is_ecotone_active attrs.inner.payload_attributes.timestamp then .V3
             else .V2) ∧ id = pid) ∧
    (∀ (cfg : RollupConfig) (ec : EngineClient) (pid : PayloadId)
        (attrs : OpAttributesWithParent) (v : EngineNewPayloadVersion)
        (p : OpExecutionPayload),
      Event.newPayloadCall v p ∈ (BuildTask.fetch_payload_part cfg ec pid attrs).1 →
        v = p.version) ∧
    (∀ (cfg : RollupConfig) (ec : EngineClient) (pid : PayloadId)
        (attrs : OpAttributesWithParent) (tr : List Event)
        (envl : OpExecutionPayloadEnvelope) (st : PayloadStatusEnum),
      BuildTask.fetch_payload_part cfg ec pid attrs = (tr, .ok (envl, st)) →
        Event.newPayloadCall envl.payload.version envl.payload ∈ tr) := by
  refine ⟨?_, ?_, ?_, ?_⟩
  · intro t ec fcs attrs
    rw [start_build_trace, fcuVersion_formula]
  · intro cfg ec pid attrs v id hmem
    rw [← getPayloadVersion_formula]
    simp only [BuildTask.fetch_payload_part] at hmem
    split at hmem <;> split at hmem <;> try split at hmem
    all_goals try split at hmem
    all_goals simp_all
  · intro cfg ec pid attrs v p hmem
    simp only [BuildTask.fetch_payload_part] at hmem
    split at hmem <;> split at hmem <;> try split at hmem
    all_goals try split at hmem
    all_goals simp_all [OpExecutionPayload.version]
  · intro cfg ec pid attrs tr envl st h
    simp only [BuildTask.fetch_payload_part] at h
    split at h <;> split at h <;> try split at h
    all_goals try split at h
    all_goals first
      | (simp at h; rcases h with ⟨h1, h2, h3⟩; subst_vars; simp [OpExecutionPayload.version])
      | simp at h

/-- Witness for C3 at concrete inputs: on the fixtures (Ecotone active,
Isthmus inactive at timestamp 10) the FCU-with-attributes event carries V3,
the getPayload event carries V3 with the submitted payload id, and the
newPayload event submits the fetched V3 payload at V3. -/
theorem C3_engine_api_versions_witness :
    (taskF.start_build clientF ⟨108, 105, 104⟩ attrsF).1 =
      [Event.fcuWithAttrs .V3 ⟨108, 105, 104⟩] ∧
    (EngineGetPayloadVersion.V3 =
        (if cfgF.is_isthmus_active attrsF.inner.payload_attributes.timestamp then .V4
         else if cfgF.is_ecotone_active attrsF.inner.payload_attributes.timestamp then .V3
         else .V2) ∧ (1 : PayloadId) = 1) ∧
    Event.newPayloadCall (OpExecutionPayload.V3 ⟨1⟩).version (.V3 ⟨1⟩) ∈
      (BuildTask.fetch_payload_part cfgF clientF 1 attrsF).1 := by
  refine ⟨?_, ?_, ?_⟩
  · exact (C3_engine_api_versions.1 taskF clientF ⟨108, 105, 104⟩ attrsF).trans (by rfl)
  · exact C3_engine_api_versions.2.1 cfgF clientF 1 attrsF .V3 1 (by decide)
  · exact C3_engine_api_versions.2.2.2 cfgF clientF 1 attrsF _
      ⟨some 7, .V3 ⟨1⟩⟩ (.invalid "bad tx") rfl

/-- Deposits-only attributes over the fixtures. -/
def attrsDepF : OpAttributesWithParent :=
  { inner := { payload_attributes := { timestamp := 10, parent_beacon_block_root := some 7 },
               transactions := some [{ isDeposit := true, payload := 6 }] }
    parent := l2F 8 }

/-- Fixture task with deposits-only attributes, derived, open channel: its
run succeeds end to end. -/
def taskDepF : BuildTask :=
  BuildTask.new clientF cfgF attrsDepF true (some { closed := false })

/-- Fixture task with deposits-only attributes, derived, closed outbound
channel: its run commits heads and then fails with `MpscSend`. -/
def taskDepClosedF : BuildTask :=
  BuildTask.new clientF cfgF attrsDepF true (some { closed := true })

/-- The event trace of the successful deposits-only fixture run. -/
def trDepF : List Event :=
  [Event.fcuWithAttrs .V3 ⟨108, 105, 104⟩,
   Event.getPayloadCall .V3 2,
   Event.newPayloadCall .V3 (.V3 ⟨2⟩),
   Event.setUnsafeHead (l2F 52), Event.setCrossUnsafeHead (l2F 52),
   Event.setLocalSafeHead (l2F 52), Event.setSafeHead (l2F 52),
   Event.fcuNoAttrs ⟨152, 152, 104⟩,
   Event.payloadSent ⟨some 7, .V3 ⟨2⟩⟩]

/-- Claim C4: after a successful fetch-and-import, `execute` commits in this
order: it sets the unsafe and cross-unsafe heads to the new block
unconditionally; it additionally sets the local-safe and safe heads if and
only if `is_attributes_derived`; it then runs the Forkchoice Task to
canonicalize, propagating any error; and finally, if an outbound payload
channel is configured, it sends the envelope, a send failure being the fatal
`MpscSend` error. -/
theorem C4_commit_phase (fuel : Nat) (t : BuildTask) (s : EngineState)
    (trA trB : List Event) (payload_id : PayloadId)
    (payload_envelope : OpExecutionPayloadEnvelope) (response : PayloadStatusEnum)
    (new_block_ref : L2BlockInfo)
    (hpre : ¬ s.unsafe_head.block_info.number < s.finalized_head.block_info.number)
    (hA : t.start_build t.engine
        { s.create_forkchoice_state with
            head_block_hash := t.attributes.parent.block_info.hash } t.attributes =
      (trA, .ok payload_id))
    (hB : BuildTask.fetch_payload_part t.cfg t.engine payload_id t.attributes =
      (trB, .ok (payload_envelope, response)))
    (hst : response = .valid ∨ response = .syncing)
    (href : L2BlockInfo.from_payload_and_genesis payload_envelope.payload
        t.attributes.inner.payload_attributes.parent_beacon_block_root t.cfg.genesis =
      .ok new_block_ref) :
    BuildTask.execute (fuel + 1) t s =
      (let state2 :=
        if t.is_attributes_derived then
          ((((s.set_unsafe_head new_block_ref).set_cross_unsafe_head
              new_block_ref).set_local_safe_head new_block_ref).set_safe_head new_block_ref)
        else (s.set_unsafe_head new_block_ref).set_cross_unsafe_head new_block_ref
      let trHeads :=
        [Event.setUnsafeHead new_block_ref, Event.setCrossUnsafeHead new_block_ref] ++
          (if t.is_attributes_derived then
            [Event.setLocalSafeHead new_block_ref, Event.setSafeHead new_block_ref]
          else [])
      match (ForkchoiceTask.new t.engine).execute state2 with
      | (trF, .error e) => some (state2, trA ++ trB ++ trHeads ++ trF, .error e)
      | (trF, .ok _) =>
        match t.payload_tx with
        | none => some (state2, trA ++ trB ++ trHeads ++ trF, .ok ())
        | some tx =>
          if tx.closed then
            some (state2, trA ++ trB ++ trHeads ++ trF, .error (.build .MpscSend))
          else
            some (state2,
              trA ++ trB ++ trHeads ++ trF ++ [Event.payloadSent payload_envelope],
              .ok ())) := by
  rcases hst with h | h <;> subst h <;>
    · simp only [BuildTask.execute]
      rw [if_neg hpre, hA]
      dsimp only
      rw [hB]
      dsimp only
      rw [href]

/-- Witness for C4 at concrete inputs: the deposits-only fixture run imports
payload 2 as VALID, commits all four upper heads to block 52 (derived), runs
the canonicalizing FCU, sends the envelope, and succeeds. -/
theorem C4_commit_phase_witness :
    BuildTask.execute 1 taskDepF stF = some (stCommitF, trDepF, .ok ()) :=
  (C4_commit_phase 0 taskDepF stF _ _ 2 _ .valid (l2F 52) (by decide) rfl rfl
    (Or.inl rfl) rfl).trans (by rfl)

/-- Claim C10: if `execute` returns an error raised after a successful
payload import — an error from the canonicalizing Forkchoice Task or an
`MpscSend` error from the outbound payload channel — the Phase C head
updates have already been applied: the unsafe and cross-unsafe heads (and
the local-safe and safe heads when `is_attributes_derived`) point to the
newly imported block even though the call returns an error, so these
failures are not atomic with respect to the engine state. -/
theorem C10_post_import_error_not_atomic (fuel : Nat) (t : BuildTask)
    (s s2 : EngineState) (trA trB tr : List Event) (payload_id : PayloadId)
    (payload_envelope : OpExecutionPayloadEnvelope) (response : PayloadStatusEnum)
    (new_block_ref : L2BlockInfo) (e : EngineTaskError)
    (hpre : ¬ s.unsafe_head.block_info.number < s.finalized_head.block_info.number)
    (hA : t.start_build t.engine
        { s.create_forkchoice_state with
            head_block_hash := t.attributes.parent.block_info.hash } t.attributes =
      (trA, .ok payload_id))
    (hB : BuildTask.fetch_payload_part t.cfg t.engine payload_id t.attributes =
      (trB, .ok (payload_envelope, response)))
    (hst : response = .valid ∨ response = .syncing)
    (href : L2BlockInfo.from_payload_and_genesis payload_envelope.payload
        t.attributes.inner.payload_attributes.parent_beacon_block_root t.cfg.genesis =
      .ok new_block_ref)
    (herr : BuildTask.execute (fuel + 1) t s = some (s2, tr, .error e)) :
    s2.unsafe_head = new_block_ref ∧ s2.cross_unsafe_head = new_block_ref ∧
    (t.is_attributes_derived = true →
        s2.local_safe_head = new_block_ref ∧ s2.safe_head = new_block_ref) ∧
    (t.is_attributes_derived = false →
        s2.local_safe_head = s.local_safe_head ∧ s2.safe_head = s.safe_head) ∧
    s2.finalized_head = s.finalized_head ∧
    (e = .build .MpscSend ∨ e.isForkchoiceTaskError = true) := by
  rcases hst with h | h <;> subst h <;>
    · simp only [BuildTask.execute] at herr
      rw [if_neg hpre, hA] at herr
      dsimp only at herr
      rw [hB] at herr
      dsimp only at herr
      rw [href] at herr
      dsimp only at herr
      split at herr
      case _ trF eF hF =>
        have hcls := forkchoiceTask_error_shape _ _ _ _ hF
        simp at herr
        rcases herr with ⟨h1, h2, h3⟩
        subst_vars
        cases htd : t.is_attributes_derived <;>
          simp_all [EngineState.set_unsafe_head, EngineState.set_cross_unsafe_head,
            EngineState.set_local_safe_head, EngineState.set_safe_head]
      case _ trF u hF =>
        split at herr
        · simp at herr
        · split at herr
          · simp at herr
            rcases herr with ⟨h1, h2, h3⟩
            subst_vars
            cases htd : t.is_attributes_derived <;>
              simp_all [EngineState.set_unsafe_head, EngineState.set_cross_unsafe_head,
                EngineState.set_local_safe_head, EngineState.set_safe_head]
          · simp at herr

/-- Witness for C10 at concrete inputs: on the deposits-only fixture with a
closed outbound channel, the run fails with `MpscSend` while all four upper
heads already point to the newly imported block 52 and the finalized head is
untouched. -/
theorem C10_post_import_error_not_atomic_witness :
    stCommitF.unsafe_head = l2F 52 ∧ stCommitF.cross_unsafe_head = l2F 52 ∧
    (taskDepClosedF.is_attributes_derived = true →
        stCommitF.local_safe_head = l2F 52 ∧ stCommitF.safe_head = l2F 52) ∧
    (taskDepClosedF.is_attributes_derived = false →
        stCommitF.local_safe_head = stF.local_safe_head ∧
        stCommitF.safe_head = stF.safe_head) ∧
    stCommitF.finalized_head = stF.finalized_head ∧
    (EngineTaskError.build .MpscSend = .build .MpscSend ∨
      (EngineTaskError.build .MpscSend).isForkchoiceTaskError = true) :=
  C10_post_import_error_not_atomic 0 taskDepClosedF stF stCommitF _ _ _ 2 _ .valid
    (l2F 52) _ (by decide) rfl rfl (Or.inl rfl) rfl rfl

/-- Claim C1: for every engine state reachable immediately after a
successful `BuildTask::execute` commit — from an entry state satisfying the
head-tower ordering, with the genesis lift producing blocks no older than
the entry local-safe head — the head tower is ordered by block number:
`unsafe ≥ cross_unsafe ≥ local_safe ≥ safe ≥ finalized`, including the case
`is_attributes_derived = false` where only the unsafe and cross-unsafe heads
move. -/
theorem C1_head_tower_ordered (fuel : Nat) (t : BuildTask) (s s2 : EngineState)
    (tr : List Event)
    (hord : s.ordered)
    (hlift : ∀ (p : OpExecutionPayload) (pb : Option Hash) (r : L2BlockInfo),
        t.cfg.genesis.from_payload p pb = .ok r →
        s.local_safe_head.block_info.number ≤ r.block_info.number)
    (h : BuildTask.execute fuel t s = some (s2, tr, .ok ())) :
    s2.ordered := by
  match fuel with
  | 0 => simp [BuildTask.execute] at h
  | fuel + 1 =>
    simp only [BuildTask.execute] at h
    by_cases hpre : s.unsafe_head.block_info.number < s.finalized_head.block_info.number
    · rw [if_pos hpre] at h
      simp at h
    · rw [if_neg hpre] at h
      split at h
      · simp at h
      · split at h
        · simp at h
        · split at h
          · -- INVALID branch: never returns ok
            split at h
            · simp at h
            · split at h
              · split at h <;> simp at h
              · simp at h
          · -- VALID branch
            split at h
            · simp at h
            case _ new_block_ref hrefeq =>
              simp only [L2BlockInfo.from_payload_and_genesis] at hrefeq
              have hb := hlift _ _ _ hrefeq
              split at h
              · simp at h
              · split at h
                · simp at h
                  rcases h with ⟨h1, h2⟩
                  subst_vars
                  rcases hord with ⟨o1, o2, o3, o4⟩
                  cases htd : t.is_attributes_derived <;>
                    simp_all [EngineState.set_unsafe_head,
                      EngineState.set_cross_unsafe_head, EngineState.set_local_safe_head,
                      EngineState.set_safe_head, EngineState.ordered] <;>
                    omega
                · split at h
                  · simp at h
                  · simp at h
                    rcases h with ⟨h1, h2⟩
                    subst_vars
                    rcases hord with ⟨o1, o2, o3, o4⟩
                    cases htd : t.is_attributes_derived <;>
                      simp_all [EngineState.set_unsafe_head,
                        EngineState.set_cross_unsafe_head,
                        EngineState.set_local_safe_head,
                        EngineState.set_safe_head, EngineState.ordered] <;>
                      omega
          · -- SYNCING branch
            split at h
            · simp at h
            case _ new_block_ref hrefeq =>
              simp only [L2BlockInfo.from_payload_and_genesis] at hrefeq
              have hb := hlift _ _ _ hrefeq
              split at h
              · simp at h
              · split at h
                · simp at h
                  rcases h with ⟨h1, h2⟩
                  subst_vars
                  rcases hord with ⟨o1, o2, o3, o4⟩
                  cases htd : t.is_attributes_derived <;>
                    simp_all [EngineState.set_unsafe_head,
                      EngineState.set_cross_unsafe_head, EngineState.set_local_safe_head,
                      EngineState.set_safe_head, EngineState.ordered] <;>
                    omega
                · split at h
                  · simp at h
                  · simp at h
                    rcases h with ⟨h1, h2⟩
                    subst_vars
                    rcases hord with ⟨o1, o2, o3, o4⟩
                    cases htd : t.is_attributes_derived <;>
                      simp_all [EngineState.set_unsafe_head,
                        EngineState.set_cross_unsafe_head,
                        EngineState.set_local_safe_head,
                        EngineState.set_safe_head, EngineState.ordered] <;>
                      omega
          · simp at h

/-- Witness for C1 at concrete inputs: the successful deposits-only fixture
run yields the committed state and it satisfies the head-tower ordering. -/
theorem C1_head_tower_ordered_witness : stCommitF.ordered :=
  C1_head_tower_ordered 1 taskDepF stF stCommitF trDepF (by decide)
    (by
      intro p pb r hr
      cases p with
      | V3 q =>
        simp [taskDepF, BuildTask.new, cfgF] at hr
        subst hr
        simp [stF, l2F, biF]
      | V1 q => simp [taskDepF, BuildTask.new, cfgF] at hr
      | V2 q => simp [taskDepF, BuildTask.new, cfgF] at hr
      | V4 q => simp [taskDepF, BuildTask.new, cfgF] at hr)
    rfl

/-- Counterexample to C6 as stated: on the fixtures the Build Task fails in
Phase B — the INVALID branch of the payload import raises
`HoloceneInvalidFlush` — yet the engine state has been mutated (all four
upper heads moved to the deposits-only block 52 by the successful inner
re-attempt) and an envelope was sent on the outbound payload channel. -/
theorem C6_counterexample :
    BuildTask.execute 2 taskF stF =
      some (stCommitF, trHoloF, .error (.build .HoloceneInvalidFlush)) ∧
    stCommitF ≠ stF ∧
    Event.payloadSent ⟨some 7, .V3 ⟨2⟩⟩ ∈ trHoloF :=
  ⟨by rfl, by decide, by decide⟩

/-- Claim C6 (amended): every `BuildTask::execute` failure raised in Phase A
or Phase B other than the two Holocene deposits-only re-attempt outcomes
(`HoloceneInvalidFlush` and `DepositOnlyPayloadReattemptFailed`) — in
particular `EngineSyncing` when the initial forkchoice update returns
SYNCING, and `NewPayloadFailed` when newPayload returns INVALID with
Holocene not active — leaves the engine state completely unmutated and
sends nothing on the outbound payload channel (`MpscSend` is a Phase C
error and is excluded with the re-attempt outcomes). -/
theorem C6_phase_ab_failures_frame (fuel : Nat) (t : BuildTask) (s s2 : EngineState)
    (tr : List Event) (e : BuildTaskError)
    (h : BuildTask.execute fuel t s = some (s2, tr, .error (.build e)))
    (hne1 : e ≠ .HoloceneInvalidFlush)
    (hne2 : e ≠ .DepositOnlyPayloadReattemptFailed)
    (hne3 : e ≠ .MpscSend) :
    s2 = s ∧ ∀ x, Event.payloadSent x ∉ tr := by
  match fuel with
  | 0 => simp [BuildTask.execute] at h
  | fuel + 1 =>
    simp only [BuildTask.execute] at h
    by_cases hpre : s.unsafe_head.block_info.number < s.finalized_head.block_info.number
    · rw [if_pos hpre] at h
      simp at h
      rcases h with ⟨h1, h2, h3⟩
      subst_vars
      exact ⟨rfl, by simp⟩
    · rw [if_neg hpre] at h
      split at h
      case _ trA eA heqA =>
        have htrA : trA = _ := (congrArg Prod.fst heqA).symm.trans (start_build_trace _ _ _ _)
        simp at h
        rcases h with ⟨h1, h2, h3⟩
        subst_vars
        exact ⟨rfl, by simp⟩
      case _ trA payload_id heqA =>
        have htrA : trA = _ := (congrArg Prod.fst heqA).symm.trans (start_build_trace _ _ _ _)
        have htrB := fun trB0 (heqB : BuildTask.fetch_payload_part t.cfg t.engine
            payload_id t.attributes = trB0) x =>
          (congrArg Prod.fst heqB) ▸ fetch_payload_part_no_payloadSent t.cfg t.engine
            payload_id t.attributes x
        split at h
        case _ trB eB heqB =>
          have hB := htrB _ heqB
          simp at h
          rcases h with ⟨h1, h2, h3⟩
          subst_vars
          refine ⟨rfl, fun x => ?_⟩
          simp only [List.mem_append, not_or]
          exact ⟨by simp, hB x⟩
        case _ trB payload_envelope response heqB =>
          have hB := htrB _ heqB
          split at h
          · -- INVALID
            split at h
            · simp at h
              rcases h with ⟨h1, h2, h3⟩
              subst_vars
              refine ⟨rfl, fun x => ?_⟩
              simp only [List.mem_append, not_or]
              exact ⟨by simp, hB x⟩
            · split at h
              · split at h
                · simp at h
                · simp at h
                  rcases h with ⟨h1, h2, h3⟩
                  exact absurd h3.symm hne1
                · simp at h
                  rcases h with ⟨h1, h2, h3⟩
                  exact absurd h3.symm hne2
              · simp at h
                rcases h with ⟨h1, h2, h3⟩
                subst_vars
                refine ⟨rfl, fun x => ?_⟩
                simp only [List.mem_append, not_or]
                exact ⟨by simp, hB x⟩
          · -- VALID
            split at h
            · simp at h
              rcases h with ⟨h1, h2, h3⟩
              subst_vars
              refine ⟨rfl, fun x => ?_⟩
              simp only [List.mem_append, not_or]
              exact ⟨by simp, hB x⟩
            · split at h
              case _ trF eF heqF =>
                have hcls := forkchoiceTask_error_shape _ _ _ _ heqF
                simp at h
                rcases h with ⟨h1, h2, h3⟩
                rw [h3] at hcls
                simp [EngineTaskError.isForkchoiceTaskError] at hcls
              case _ trF u heqF =>
                split at h
                · simp at h
                · split at h
                  · simp at h
                    rcases h with ⟨h1, h2, h3⟩
                    exact absurd h3.symm hne3
                  · simp at h
          · -- SYNCING
            split at h
            · simp at h
              rcases h with ⟨h1, h2, h3⟩
              subst_vars
              refine ⟨rfl, fun x => ?_⟩
              simp only [List.mem_append, not_or]
              exact ⟨by simp, hB x⟩
            · split at h
              case _ trF eF heqF =>
                have hcls := forkchoiceTask_error_shape _ _ _ _ heqF
                simp at h
                rcases h with ⟨h1, h2, h3⟩
                rw [h3] at hcls
                simp [EngineTaskError.isForkchoiceTaskError] at hcls
              case _ trF u heqF =>
                split at h
                · simp at h
                · split at h
                  · simp at h
                    rcases h with ⟨h1, h2, h3⟩
                    exact absurd h3.symm hne3
                  · simp at h
          · -- other status
            simp at h
            rcases h with ⟨h1, h2, h3⟩
            subst_vars
            refine ⟨rfl, fun x => ?_⟩
            simp only [List.mem_append, not_or]
            exact ⟨by simp, hB x⟩

/-- Witness for the amended C6 at concrete inputs: with Holocene inactive
the INVALID import on the fixture attributes fails with
`NewPayloadFailed "bad tx"`, leaving the state untouched and sending
nothing. -/
theorem C6_phase_ab_failures_frame_witness :
    BuildTask.execute 1
        (BuildTask.new clientF
          { cfgF with holocene_time := none } attrsF true (some { closed := false })) stF =
      some (stF,
        [Event.fcuWithAttrs .V3 ⟨108, 105, 104⟩, Event.getPayloadCall .V3 1,
         Event.newPayloadCall .V3 (.V3 ⟨1⟩)],
        .error (.build (.NewPayloadFailed "bad tx"))) ∧
    (stF = stF ∧ ∀ x, Event.payloadSent x ∉
      [Event.fcuWithAttrs .V3 ⟨108, 105, 104⟩, Event.getPayloadCall .V3 1,
       Event.newPayloadCall .V3 (.V3 ⟨1⟩)]) :=
  ⟨by rfl,
   C6_phase_ab_failures_frame 1
     (BuildTask.new clientF { cfgF with holocene_time := none } attrsF true
       (some { closed := false })) stF stF _ (.NewPayloadFailed "bad tx")
     (by rfl) (by decide) (by decide) (by decide)⟩

/-- Claim C7: when a pipeline step fails with a Reset error in
`produce_next_attributes` (the system-config fetch succeeding): if the kind
is `HoloceneActivation` and the pipeline has an L1 origin, an Activation
signal carrying the current `l2_safe_head`, that L1 origin and the fetched
system config is sent directly to the pipeline and — when accepted — the
stepping loop continues with `waiting_for_signal` unchanged (so it remains
false); for every other Reset kind, a unit reset request is sent on
`reset_tx` if and only if interop is not active at the safe head's timestamp
(a send failure being the fatal Sender error, raised before the waiting flag
is set), `waiting_for_signal` is set to true, and Yield is returned. -/
theorem C7_reset_handling {σ : Type} (P : PipelineImpl σ) (fuel : Nat)
    (st : DerivationState σ) (w : WatchReceiver) (reset_tx : MpscSender)
    (re : ResetError) (pst1 pst2 : σ) (sc : SystemConfig)
    (hstep : P.step st.pipeline w.value = (.stepFailed (.reset re), pst1) ∨
             P.step st.pipeline w.value = (.originAdvanceErr (.reset re), pst1))
    (hsc : P.system_config_by_number pst1 w.value.block_info.number = (.ok sc, pst2)) :
    (∀ (l1_origin : BlockInfo) (pst3 : σ),
      re = .holoceneActivation →
      P.origin pst2 = some l1_origin →
      P.signal pst2 (.activation l1_origin (some sc) w.value) = (.ok (), pst3) →
      DerivationState.produce_next_attributes P (fuel + 1) st w reset_tx =
        (match P.next pst3 with
         | (some attrs, pst4) =>
           some ({ st with pipeline := pst4 },
             [DEvent.stepped w.value,
              DEvent.pipelineSignal (.activation l1_origin (some sc) w.value)],
             .ok attrs)
         | (none, pst4) =>
           (DerivationState.produce_next_attributes P fuel { st with pipeline := pst4 }
               w reset_tx).map
             (fun out => (out.1,
               [DEvent.stepped w.value,
                DEvent.pipelineSignal (.activation l1_origin (some sc) w.value)] ++ out.2.1,
               out.2.2)))) ∧
    (re ≠ .holoceneActivation →
      DerivationState.produce_next_attributes P (fuel + 1) st w reset_tx =
        (if P.rollup_config.is_interop_active w.value.block_info.timestamp then
          some ({ st with pipeline := pst2, waiting_for_signal := true },
            [DEvent.stepped w.value], .error .yield_)
        else if reset_tx.closed then
          some ({ st with pipeline := pst2 }, [DEvent.stepped w.value], .error .sender)
        else
          some ({ st with pipeline := pst2, waiting_for_signal := true },
            [DEvent.stepped w.value, DEvent.resetRequested], .error .yield_))) := by
  constructor
  · intro l1_origin pst3 hre horig hsig
    subst hre
    rcases hstep with hstep | hstep <;>
      · rw [DerivationState.produce_next_attributes.eq_2, hstep]
        dsimp only
        rw [hsc]
        dsimp only
        rw [horig]
        dsimp only
        rw [hsig]
        rfl
  · intro hne
    rcases hstep with hstep | hstep <;>
      · rw [DerivationState.produce_next_attributes.eq_2, hstep]
        dsimp only
        rw [hsc]
        dsimp only
        cases re with
        | holoceneActivation => exact absurd rfl hne
        | reorgDetected a b => rfl
        | other c => rfl

/-- A concrete pipeline over `Nat` state whose step always reports a
detected L1 reorg as a Reset error. -/
def pipeReorgF : PipelineImpl Nat :=
  { step := fun ps _ => (.stepFailed (.reset (.reorgDetected 1 2)), ps + 1)
    next := fun ps => (none, ps)
    signal := fun ps _ => (.ok (), ps)
    origin := fun _ => some (biF 3)
    system_config_by_number := fun ps n => (.ok { cfg_data := n }, ps)
    rollup_config := cfgF }

/-- A concrete watch latched at block 5 with a pending unseen change. -/
def watchF : WatchReceiver := { value := l2F 5, changed := true, closed := false }

/-- Witness for C7 at concrete inputs: a `ReorgDetected` reset with interop
inactive and an open `reset_tx` sends the reset request, sets the waiting
flag and yields. -/
theorem C7_reset_handling_witness :
    DerivationState.produce_next_attributes pipeReorgF 1 (DerivationState.new 0)
        watchF { closed := false } =
      some ({ pipeline := 1, derivation_idle := true, waiting_for_signal := true },
        [DEvent.stepped (l2F 5), DEvent.resetRequested], .error .yield_) :=
  ((C7_reset_handling pipeReorgF 0 (DerivationState.new 0) watchF { closed := false }
      (.reorgDetected 1 2) 1 1 { cfg_data := 5 } (Or.inl rfl) rfl).2
    (by decide)).trans (by rfl)

/-- Claim C8: `DerivationState::process` returns OK without stepping the
pipeline (empty event trace, state and watch unchanged) when, checked in
this order: the EL-sync-complete one-shot has not fired; `waiting_for_signal`
is set; derivation is not idle, the message is not `SafeHeadUpdated`, and
the safe-head watch reports no change (a watch error instead fails with
`L2SafeHeadReceiveFailed`, and a reported change proceeds); or the
snapshotted safe head's hash is all-zero. When every guard passes, `process`
proceeds to the stepping loop. -/
theorem C8_process_guards {σ : Type} (P : PipelineImpl σ) (fuel : Nat)
    (st : DerivationState σ) (msg : InboundDerivationMessage) (w : WatchReceiver)
    (aOut rtx : MpscSender) :
    (DerivationState.process P fuel st msg w false aOut rtx =
      some (st, w, [], .ok ())) ∧
    (st.waiting_for_signal = true →
      DerivationState.process P fuel st msg w true aOut rtx =
        some (st, w, [], .ok ())) ∧
    (st.waiting_for_signal = false → st.derivation_idle = false →
      msg ≠ .safeHeadUpdated → w.closed = true →
      DerivationState.process P fuel st msg w true aOut rtx =
        some (st, w, [], .error .l2SafeHeadReceiveFailed)) ∧
    (st.waiting_for_signal = false → st.derivation_idle = false →
      msg ≠ .safeHeadUpdated → w.closed = false → w.changed = false →
      DerivationState.process P fuel st msg w true aOut rtx =
        some (st, w, [], .ok ())) ∧
    (st.waiting_for_signal = false →
      (st.derivation_idle = true ∨ msg = .safeHeadUpdated ∨
        (w.closed = false ∧ w.changed = true)) →
      w.value.block_info.hash = 0 →
      DerivationState.process P fuel st msg w true aOut rtx =
        some (st, w, [], .ok ())) ∧
    (st.waiting_for_signal = false →
      (st.derivation_idle = true ∨ msg = .safeHeadUpdated ∨
        (w.closed = false ∧ w.changed = true)) →
      ¬ w.value.block_info.hash = 0 →
      DerivationState.process P fuel st msg w true aOut rtx =
        (match DerivationState.produce_next_attributes P fuel st w rtx with
         | none => none
         | some (st1, tr, .error .yield_) =>
           some ({ st1 with derivation_idle := true }, w, tr, .ok ())
         | some (st1, tr, .error e) => some (st1, w, tr, .error e)
         | some (st1, tr, .ok payload_attrs) =>
           if aOut.closed then
             some ({ st1 with derivation_idle := false }, w.borrow_and_update, tr,
               .error .sender)
           else
             some ({ st1 with derivation_idle := false }, w.borrow_and_update,
               tr ++ [DEvent.attrsSent payload_attrs], .ok ()))) := by
  refine ⟨?_, ?_, ?_, ?_, ?_, ?_⟩
  · simp [DerivationState.process]
  · intro hw
    simp [DerivationState.process, hw]
  · intro hw hi hm hc
    simp [DerivationState.process, WatchReceiver.has_changed, hw, hi, hm, hc]
  · intro hw hi hm hc hch
    simp [DerivationState.process, WatchReceiver.has_changed, hw, hi, hm, hc, hch]
  · intro hw hcase hhash
    rcases hcase with hi | hm | ⟨hc, hch⟩
    · simp [DerivationState.process, hw, hi, hhash]
    · simp [DerivationState.process, hw, hm, hhash]
    · by_cases hi : st.derivation_idle <;>
        by_cases hm : msg = InboundDerivationMessage.safeHeadUpdated <;>
        simp [DerivationState.process, WatchReceiver.has_changed, hw, hc, hch, hhash,
          hi, hm]
  · intro hw hcase hhash
    rcases hcase with hi | hm | ⟨hc, hch⟩
    · simp [DerivationState.process, hw, hi, hhash]
    · simp [DerivationState.process, hw, hm, hhash]
    · by_cases hi : st.derivation_idle <;>
        by_cases hm : msg = InboundDerivationMessage.safeHeadUpdated <;>
        simp [DerivationState.process, WatchReceiver.has_changed, hw, hc, hch, hhash,
          hi, hm]

/-- Witness for C8 at concrete inputs: with derivation busy, a
`NewDataAvailable` message and a closed safe-head watch, `process` fails with
`L2SafeHeadReceiveFailed` without stepping; with the EL-sync one-shot not yet
fired it skips silently. -/
theorem C8_process_guards_witness :
    DerivationState.process pipeReorgF 1
        { pipeline := 0, derivation_idle := false, waiting_for_signal := false }
        .newDataAvailable { value := l2F 5, changed := true, closed := true } true
        { closed := false } { closed := false } =
      some ({ pipeline := 0, derivation_idle := false, waiting_for_signal := false },
        { value := l2F 5, changed := true, closed := true }, [],
        .error .l2SafeHeadReceiveFailed) ∧
    DerivationState.process pipeReorgF 1 (DerivationState.new 0)
        .newDataAvailable watchF false { closed := false } { closed := false } =
      some (DerivationState.new 0, watchF, [], .ok ()) :=
  ⟨(C8_process_guards pipeReorgF 1 _ .newDataAvailable _ _ _).2.2.1 rfl rfl
      (by decide) rfl,
   (C8_process_guards pipeReorgF 1 (DerivationState.new 0) .newDataAvailable watchF
      { closed := false } { closed := false }).1⟩

/-- A concrete pipeline over `Nat` state that immediately prepares
attributes; its queue always yields the mixed fixture attributes. -/
def pipeAttrF : PipelineImpl Nat :=
  { step := fun ps _ => (.preparedAttributes, ps + 1)
    next := fun ps => (some attrsF, ps)
    signal := fun ps _ => (.ok (), ps)
    origin := fun _ => some (biF 3)
    system_config_by_number := fun ps n => (.ok { cfg_data := n }, ps)
    rollup_config := cfgF }

/-- Counterexample to C9 as stated: on a run where attributes are produced
but the downstream `attrs_out` channel is closed, the send fails with the
fatal Sender error, yet the safe-head watch HAS been marked as seen
(`changed` latched back to `false`): the marker is toggled after successful
production, before — not after — the downstream publish. -/
theorem C9_counterexample :
    DerivationState.process pipeAttrF 1 (DerivationState.new 0) .newDataAvailable
        watchF true { closed := true } { closed := false } =
      some ({ pipeline := 1, derivation_idle := false, waiting_for_signal := false },
        { value := l2F 5, changed := false, closed := false },
        [DEvent.stepped (l2F 5)], .error .sender) ∧
    watchF.changed = true ∧
    ({ value := l2F 5, changed := false, closed := false } : WatchReceiver).changed =
      false ∧
    DEvent.attrsSent attrsF ∉ [DEvent.stepped (l2F 5)] :=
  ⟨by rfl, rfl, rfl, by decide⟩

/-- Claim C9 (amended): in `DerivationState::process` the safe-head watch's
observed marker is toggled exactly when the stepping loop successfully
produces attributes — after production but before the downstream send — so a
failed send on `attrs_out` still leaves the safe head marked as seen (and
surfaces the fatal Sender error), while a run that yields or fails leaves
the marker untouched. -/
theorem C9_seen_iff_produced {σ : Type} (P : PipelineImpl σ) (fuel : Nat)
    (st st1 : DerivationState σ) (msg : InboundDerivationMessage)
    (w : WatchReceiver) (aOut rtx : MpscSender) (tr : List DEvent)
    (hw : st.waiting_for_signal = false)
    (hidle : st.derivation_idle = true)
    (hhash : ¬ w.value.block_info.hash = 0) :
    (∀ attrs,
      DerivationState.produce_next_attributes P fuel st w rtx =
        some (st1, tr, .ok attrs) →
      DerivationState.process P fuel st msg w true aOut rtx =
        (if aOut.closed then
          some ({ st1 with derivation_idle := false }, w.borrow_and_update, tr,
            .error .sender)
        else
          some ({ st1 with derivation_idle := false }, w.borrow_and_update,
            tr ++ [DEvent.attrsSent attrs], .ok ()))) ∧
    (∀ e,
      DerivationState.produce_next_attributes P fuel st w rtx =
        some (st1, tr, .error e) →
      DerivationState.process P fuel st msg w true aOut rtx =
        (if e = .yield_ then some ({ st1 with derivation_idle := true }, w, tr, .ok ())
         else some (st1, w, tr, .error e))) := by
  constructor
  · intro attrs hp
    simp [DerivationState.process, hw, hidle, hhash, hp]
  · intro e hp
    cases e <;> simp [DerivationState.process, hw, hidle, hhash, hp]

/-- Witness for the amended C9 at concrete inputs: with an open downstream
channel the produced attributes are sent after the watch is marked seen. -/
theorem C9_seen_iff_produced_witness :
    DerivationState.process pipeAttrF 1 (DerivationState.new 0) .newDataAvailable
        watchF true { closed := false } { closed := false } =
      some ({ pipeline := 1, derivation_idle := false, waiting_for_signal := false },
        { value := l2F 5, changed := false, closed := false },
        [DEvent.stepped (l2F 5), DEvent.attrsSent attrsF], .ok ()) :=
  ((C9_seen_iff_produced pipeAttrF 1 (DerivationState.new 0)
      { pipeline := 1, derivation_idle := true, waiting_for_signal := false }
      .newDataAvailable watchF { closed := false } { closed := false }
      [DEvent.stepped (l2F 5)] rfl rfl (by decide)).1 attrsF rfl).trans (by rfl)

end Kona




